import Mathlib

/-!
Verification of the Meetup event-graph pipeline.

This file gives a shallow embedding of the graph-construction and
GNN-training code of the repository (files
src/data_collection/graph_construction.py and src/models/gnn_training.py)
and proves or refutes the frozen specification claims about it.

Library calls whose outputs the code merely consumes (sklearn TF-IDF
vectorization, sklearn cosine_similarity, numpy random draws, k-means
clustering, the torch training loops) are modelled as explicit inputs of
the embedded functions; the control flow, arithmetic and data handling of
the repository code itself is translated faithfully.
-/

namespace Meetup

/-! ## Similarity graph builder
Embedding of GraphConstructor.create_event_similarity_graph
(graph_construction.py lines 366-444).

The builder reads self.tfidf_features and computes
similarity_matrix = cosine_similarity(tfidf_features) when the TF-IDF
block has width greater than 1, and a random matrix (np.random.rand with
a forced unit diagonal) otherwise.  Both matrices are inputs of the
embedding: cosSim stands for the cosine-similarity matrix of the textual
feature vectors, randSim for the random fallback draw. -/

structure FeatState where
  n : ℕ
  tfidfWidth : ℕ
  cosSim : ℕ → ℕ → ℚ
  randSim : ℕ → ℕ → ℚ

/-- similarity_matrix as selected at lines 372-377: cosine similarity of
the TF-IDF block when its width exceeds 1, else the random fallback. -/
def simMatrix (s : FeatState) : ℕ → ℕ → ℚ :=
  if 1 < s.tfidfWidth then s.cosSim else s.randSim

/-- The ordered pairs (i, j) with i < j < n visited by the double loop
at lines 398-399 (for i in range(n), for j in range(i+1, n)). -/
def pairsList (n : ℕ) : List (ℕ × ℕ) :=
  ((List.range n).flatMap (fun i => (List.range n).map (fun j => (i, j)))).filter
    (fun p => p.1 < p.2)

/-- The weighted edge list added at lines 400-403: the pair (i, j) gets an
edge of weight similarity_matrix[i][j] exactly when that similarity is
strictly greater than the threshold. -/
def edgesAt (s : FeatState) (t : ℚ) : List (ℕ × ℕ × ℚ) :=
  (pairsList s.n).filterMap (fun p =>
    if t < simMatrix s p.1 p.2 then some (p.1, p.2, simMatrix s p.1 p.2) else none)

/-- create_event_similarity_graph with the single recursive relaxation at
lines 408-410 unrolled: if fewer than 10 edges were produced and the
threshold exceeds 0.05, the graph is rebuilt at threshold 0.05 (and the
rebuilt call cannot relax again because 0.05 is not above 0.05). -/
def createSimGraph (s : FeatState) (t : ℚ) : List (ℕ × ℕ × ℚ) :=
  let E := edgesAt s t
  if E.length < 10 ∧ mkRat 1 20 < t then edgesAt s (mkRat 1 20) else E

/-- The literal recursion of create_event_similarity_graph, with explicit
fuel; returns none when the recursion depth exceeds the fuel. -/
def createSimGraphFuel : ℕ → FeatState → ℚ → Option (List (ℕ × ℕ × ℚ))
  | 0, _, _ => none
  | fuel + 1, s, t =>
    let E := edgesAt s t
    if E.length < 10 ∧ mkRat 1 20 < t then createSimGraphFuel fuel s (mkRat 1 20)
    else some E

/-- Undirected edge membership, as in the networkx Graph the code builds:
the stored pair (i, j) with i < j represents the unordered edge. -/
def edgeMemB (E : List (ℕ × ℕ × ℚ)) (i j : ℕ) : Bool :=
  E.any (fun e => (e.1 == i && e.2.1 == j) || (e.1 == j && e.2.1 == i))

/-- Bounded symmetry check of the adjacency relation over the node set. -/
def symCheck (E : List (ℕ × ℕ × ℚ)) (n : ℕ) : Bool :=
  (List.range n).all (fun i => (List.range n).all (fun j => edgeMemB E i j == edgeMemB E j i))

/-- No stored edge is a self loop (every stored pair is strictly increasing). -/
def selfLoopFree (E : List (ℕ × ℕ × ℚ)) : Bool :=
  E.all (fun e => decide (e.1 < e.2.1))

/-- Every stored edge weight equals the cosine similarity of the endpoint
textual feature vectors. -/
def weightsMatchCos (s : FeatState) (E : List (ℕ × ℕ × ℚ)) : Bool :=
  E.all (fun e => e.2.2 == s.cosSim e.1 e.2.1)

theorem mem_pairsList {n i j : ℕ} : (i, j) ∈ pairsList n ↔ i < j ∧ j < n := by
  unfold pairsList
  simp only [List.mem_filter, List.mem_flatMap, List.mem_map, List.mem_range]
  constructor
  · rintro ⟨⟨a, ha, b, hb, hab⟩, hlt⟩
    cases hab
    exact ⟨by simpa using hlt, hb⟩
  · rintro ⟨hij, hjn⟩
    exact ⟨⟨i, lt_trans hij hjn, j, hjn, rfl⟩, by simpa using hij⟩

theorem mem_edgesAt {s : FeatState} {t : ℚ} {e : ℕ × ℕ × ℚ} :
    e ∈ edgesAt s t ↔
      (e.1 < e.2.1 ∧ e.2.1 < s.n) ∧ t < simMatrix s e.1 e.2.1 ∧
        e.2.2 = simMatrix s e.1 e.2.1 := by
  unfold edgesAt
  rw [List.mem_filterMap]
  constructor
  · rintro ⟨p, hp, hf⟩
    by_cases hc : t < simMatrix s p.1 p.2
    · rw [if_pos hc] at hf
      cases hf
      exact ⟨mem_pairsList.mp (by simpa using hp), hc, rfl⟩
    · rw [if_neg hc] at hf
      cases hf
  · rintro ⟨hpair, hsim, hw⟩
    refine ⟨(e.1, e.2.1), mem_pairsList.mpr hpair, ?_⟩
    simp only [if_pos hsim, Option.some.injEq]
    obtain ⟨e1, e2, ew⟩ := e
    simp only at hw ⊢
    rw [hw]

theorem length_filterMap_ite {α β : Type} (l : List α) (p : α → Prop) [DecidablePred p]
    (f : α → β) :
    (l.filterMap (fun a => if p a then some (f a) else none)).length
      = l.countP (fun a => decide (p a)) := by
  induction l with
  | nil => simp
  | cons a l ih =>
    by_cases h : p a <;>
      simp [List.filterMap_cons, List.countP_cons, h, ih]

theorem length_edgesAt (s : FeatState) (t : ℚ) :
    (edgesAt s t).length = (pairsList s.n).countP (fun p => decide (t < simMatrix s p.1 p.2)) := by
  unfold edgesAt
  exact length_filterMap_ite _ _ _

theorem edgesAt_anti (s : FeatState) {t u : ℚ} (h : t ≤ u) :
    (edgesAt s u).length ≤ (edgesAt s t).length := by
  rw [length_edgesAt, length_edgesAt]
  refine List.countP_mono_left ?_
  intro p _ hp
  simp only [decide_eq_true_eq] at hp ⊢
  exact lt_of_le_of_lt h hp

/-! ### Claims C2, C3, C4 about the similarity graph builder -/

/-- A concrete similarity matrix on 20 nodes: the ten pairs (2k, 2k+1) have
similarity 0.3, the pair (0, 2) has similarity 0.1, the diagonal is 1 and
every other entry is 0.  This is a genuine cosine-similarity matrix: it is
realized by binary TF-IDF-style vectors of equal squared norm 20, where
nodes 2k and 2k+1 share 6 coordinates, nodes 0 and 2 share 2 further
coordinates, and all remaining coordinates are private (cosine of two 0/1
vectors of squared norm 20 is their overlap divided by 20). -/
def cexSim : ℕ → ℕ → ℚ :=
  fun i j =>
    if i = j then 1
    else if i / 2 = j / 2 then mkRat 3 10
    else if (i = 0 ∧ j = 2) ∨ (i = 2 ∧ j = 0) then mkRat 1 10
    else 0

def cexState : FeatState :=
  { n := 20, tfidfWidth := 20, cosSim := cexSim, randSim := fun _ _ => 0 }

/-- Claim C2, counterexample: at threshold 0.1 the builder keeps the 10
edges of similarity 0.3 and does not relax, but at the larger threshold
0.5 it finds 0 edges, relaxes to 0.05 and returns 11 edges, so the edge
count is not monotonically non-increasing in the requested threshold. -/
theorem similarity_threshold_monotone_cex :
    mkRat 1 10 < mkRat 1 2 ∧
    (createSimGraph cexState (mkRat 1 10)).length = 10 ∧
    (createSimGraph cexState (mkRat 1 2)).length = 11 ∧
    ¬((createSimGraph cexState (mkRat 1 2)).length ≤ (createSimGraph cexState (mkRat 1 10)).length) := by
  refine ⟨by decide, ?_, ?_, ?_⟩ <;> decide

/-- Claim C2, amended: for thresholds t1 < t2, the similarity graph built
at t1 has at least as many edges as the one built at t2, provided the call
at t2 does not trigger the auto-relaxation (its initial edge count is at
least 10, or t2 is not above the 0.05 floor).  When the t2 call relaxes,
the inequality can fail, as the counterexample shows. -/
theorem similarity_threshold_monotone_amended (s : FeatState) (t1 t2 : ℚ)
    (h12 : t1 < t2)
    (hnr : ¬((edgesAt s t2).length < 10 ∧ mkRat 1 20 < t2)) :
    (createSimGraph s t2).length ≤ (createSimGraph s t1).length := by
  have h2 : createSimGraph s t2 = edgesAt s t2 := by
    unfold createSimGraph
    rw [if_neg hnr]
  rw [h2]
  unfold createSimGraph
  by_cases hr : (edgesAt s t1).length < 10 ∧ mkRat 1 20 < t1
  · rw [if_pos hr]
    exact edgesAt_anti s (le_trans (le_of_lt hr.2) (le_of_lt h12))
  · rw [if_neg hr]
    exact edgesAt_anti s (le_of_lt h12)

/-- Witness for the amended claim C2 at a concrete input: with the
20-node matrix above and thresholds 0.05 < 0.1, the call at 0.1 yields
10 edges without relaxing, and the call at 0.05 yields 11 edges. -/
theorem similarity_threshold_monotone_witness :
    (createSimGraph cexState (mkRat 1 10)).length ≤ (createSimGraph cexState (mkRat 1 20)).length :=
  similarity_threshold_monotone_amended cexState (mkRat 1 20) (mkRat 1 10) (by decide) (by decide)

/-- Structural facts about every edge the builder can emit: endpoints are
an increasing pair below n, and the weight is the selected similarity. -/
theorem mem_createSimGraph {s : FeatState} {t : ℚ} {e : ℕ × ℕ × ℚ}
    (h : e ∈ createSimGraph s t) :
    (e.1 < e.2.1 ∧ e.2.1 < s.n) ∧ e.2.2 = simMatrix s e.1 e.2.1 := by
  unfold createSimGraph at h
  by_cases hr : (edgesAt s t).length < 10 ∧ mkRat 1 20 < t
  · rw [if_pos hr] at h
    exact ⟨(mem_edgesAt.mp h).1, (mem_edgesAt.mp h).2.2⟩
  · rw [if_neg hr] at h
    exact ⟨(mem_edgesAt.mp h).1, (mem_edgesAt.mp h).2.2⟩

theorem edgeMemB_symm (E : List (ℕ × ℕ × ℚ)) (i j : ℕ) :
    edgeMemB E i j = edgeMemB E j i := by
  unfold edgeMemB
  induction E with
  | nil => rfl
  | cons e E ih =>
    simp only [List.any_cons, ih]
    cases h1 : (e.1 == i && e.2.1 == j) <;> cases h2 : (e.1 == j && e.2.1 == i) <;> rfl

/-- A degenerate state in which the TF-IDF block has width 1 (for example
every event text reduces to the same single vocabulary token), so the code
replaces the cosine matrix by np.random.rand values.  The cosine
similarity of the two identical one-dimensional feature vectors is 1; the
modelled random draw for the pair (0, 1) is 1/2. -/
def cexC3State : FeatState :=
  { n := 2, tfidfWidth := 1, cosSim := fun _ _ => 1,
    randSim := fun i j => if i = j then 1 else mkRat 1 2 }

/-- Claim C3, amended: for every event table the similarity graph is
simple and undirected — no self-loops and symmetric adjacency,
unconditionally — and whenever the TF-IDF block has width greater than 1
(so the cosine branch, not the random fallback, is taken), every stored
edge weight additionally equals the cosine similarity of the endpoint
textual feature vectors (exact equality in the rational model).  The
counterexample shows the weight clause fails when the width is at most
1, while the first two clauses hold there as well. -/
theorem similarity_graph_simple_amended (s : FeatState) (t : ℚ) :
    selfLoopFree (createSimGraph s t) = true ∧
    symCheck (createSimGraph s t) s.n = true ∧
    (1 < s.tfidfWidth → weightsMatchCos s (createSimGraph s t) = true) := by
  refine ⟨?_, ?_, ?_⟩
  · unfold selfLoopFree
    rw [List.all_eq_true]
    intro e he
    exact decide_eq_true (mem_createSimGraph he).1.1
  · unfold symCheck
    rw [List.all_eq_true]
    intro i _
    rw [List.all_eq_true]
    intro j _
    rw [edgeMemB_symm]
    exact beq_self_eq_true _
  · intro h
    have hsim : simMatrix s = s.cosSim := by
      unfold simMatrix
      rw [if_pos h]
    unfold weightsMatchCos
    rw [List.all_eq_true]
    intro e he
    have := (mem_createSimGraph he).2
    rw [hsim] at this
    exact beq_iff_eq.mpr this

/-- Witness for the amended claim C3: at a width-20 state the inner
width hypothesis of the weight clause is discharged concretely, and at
the width-1 state of the counterexample the unconditional no-self-loop
and symmetry clauses are exercised on the random-fallback branch. -/
theorem similarity_graph_simple_witness :
    (selfLoopFree (createSimGraph cexState (mkRat 1 10)) = true ∧
     symCheck (createSimGraph cexState (mkRat 1 10)) cexState.n = true ∧
     weightsMatchCos cexState (createSimGraph cexState (mkRat 1 10)) = true) ∧
    (selfLoopFree (createSimGraph cexC3State (mkRat 1 10)) = true ∧
     symCheck (createSimGraph cexC3State (mkRat 1 10)) cexC3State.n = true) :=
  ⟨⟨(similarity_graph_simple_amended cexState (mkRat 1 10)).1,
    (similarity_graph_simple_amended cexState (mkRat 1 10)).2.1,
    (similarity_graph_simple_amended cexState (mkRat 1 10)).2.2 (by decide)⟩,
   ⟨(similarity_graph_simple_amended cexC3State (mkRat 1 10)).1,
    (similarity_graph_simple_amended cexC3State (mkRat 1 10)).2.1⟩⟩

/-- Claim C3, counterexample: with a width-1 TF-IDF block the builder uses
the random fallback matrix, and the stored edge weight 1/2 differs from
the cosine similarity 1 of the endpoint feature vectors by 1/2, beyond any
floating-point tolerance. -/
theorem similarity_weights_cex :
    (0, 1, mkRat 1 2) ∈ createSimGraph cexC3State (mkRat 1 10) ∧
    cexC3State.cosSim 0 1 = 1 ∧
    weightsMatchCos cexC3State (createSimGraph cexC3State (mkRat 1 10)) = false ∧
    (1 : ℚ)/100 < cexC3State.cosSim 0 1 - 1/2 := by
  refine ⟨by decide, by decide, by decide, ?_⟩
  have h : cexC3State.cosSim 0 1 = 1 := rfl
  rw [h]
  norm_num

/-- Claim C4: the builder performs at most one threshold relaxation and
always terminates.  If the edge count at the requested threshold is below
10 and the threshold exceeds 0.05, the graph is rebuilt exactly once at
threshold 0.05: recursion depth 2 always suffices (first conjunct), the
unrolled builder returns the threshold-0.05 edge set (second conjunct),
and the second call returns directly with fuel 1, i.e. it performs no
further recursive rebuild (third conjunct). -/
theorem similarity_relaxation_once (s : FeatState) (t : ℚ)
    (h : (edgesAt s t).length < 10 ∧ mkRat 1 20 < t) :
    createSimGraphFuel 2 s t = some (edgesAt s (mkRat 1 20)) ∧
    createSimGraph s t = edgesAt s (mkRat 1 20) ∧
    createSimGraphFuel 1 s (mkRat 1 20) = some (edgesAt s (mkRat 1 20)) := by
  have hstop : ¬((edgesAt s (mkRat 1 20)).length < 10 ∧ mkRat 1 20 < mkRat 1 20) := by
    rintro ⟨-, hlt⟩
    exact lt_irrefl _ hlt
  refine ⟨?_, ?_, ?_⟩
  · show (if (edgesAt s t).length < 10 ∧ mkRat 1 20 < t then createSimGraphFuel 1 s (mkRat 1 20)
        else some (edgesAt s t)) = some (edgesAt s (mkRat 1 20))
    rw [if_pos h]
    show (if (edgesAt s (mkRat 1 20)).length < 10 ∧ mkRat 1 20 < mkRat 1 20
        then createSimGraphFuel 0 s (mkRat 1 20) else some (edgesAt s (mkRat 1 20)))
      = some (edgesAt s (mkRat 1 20))
    rw [if_neg hstop]
  · unfold createSimGraph
    rw [if_pos h]
  · show (if (edgesAt s (mkRat 1 20)).length < 10 ∧ mkRat 1 20 < mkRat 1 20
        then createSimGraphFuel 0 s (mkRat 1 20) else some (edgesAt s (mkRat 1 20)))
      = some (edgesAt s (mkRat 1 20))
    rw [if_neg hstop]

/-- A 2-node state whose single pair has similarity exactly 0.5, so a
request at threshold 0.5 finds no edges and relaxes once. -/
def cexC4State : FeatState :=
  { n := 2, tfidfWidth := 2, cosSim := fun i j => if i = j then 1 else mkRat 1 2,
    randSim := fun _ _ => 0 }

/-- Witness for claim C4 at a concrete input. -/
theorem similarity_relaxation_once_witness :
    createSimGraphFuel 2 cexC4State (mkRat 1 2) = some (edgesAt cexC4State (mkRat 1 20)) ∧
    createSimGraph cexC4State (mkRat 1 2) = edgesAt cexC4State (mkRat 1 20) ∧
    createSimGraphFuel 1 cexC4State (mkRat 1 20) = some (edgesAt cexC4State (mkRat 1 20)) :=
  similarity_relaxation_once cexC4State (mkRat 1 2) (by decide)

/-! ## Heterogeneous graph builder
Embedding of GraphConstructor.create_heterogeneous_graph
(graph_construction.py lines 446-560), restricted to the organizer node
set and the event-to-organizer edges the claims are about.

The organizer column of the event table is modelled as
Option (List (Option String)): none when the column is absent from the
table, and inside the column none stands for a NaN cell.  Python str()
conversion maps a NaN cell to the string "nan". -/

/-- str(value) for an organizer cell: NaN prints as "nan". -/
def strOf : Option String → String
  | none => "nan"
  | some s => s

/-- The organizer node identities (lines 463-468): with the column present,
df.organizer.dropna().unique() filtered by str(org) != "nan"; with the
column absent, the single default node "Unknown_Organizer".  (dedup is
used for unique; the claims depend only on membership, not on the
first-occurrence order pandas uses.) -/
def organizersOf : Option (List (Option String)) → List String
  | none => ["Unknown_Organizer"]
  | some col => ((col.filterMap id).dedup).filter (fun s => s != "nan")

/-- The loop at lines 520-524: for each row index, look the converted
organizer string up in organizer_to_idx and emit the edge on success. -/
def orgEdgesAux (orgs : List String) : ℕ → List (Option String) → List (ℕ × ℕ)
  | _, [] => []
  | i, o :: rest =>
    if strOf o ∈ orgs then (i, orgs.indexOf (strOf o)) :: orgEdgesAux orgs (i + 1) rest
    else orgEdgesAux orgs (i + 1) rest

/-- The event-to-organizer edge list (lines 518-524): empty when the
organizer column is absent. -/
def eventOrgEdges : Option (List (Option String)) → List (ℕ × ℕ)
  | none => []
  | some col => orgEdgesAux (organizersOf (some col)) 0 col

/-! ### Claims C1 and C6 about the heterogeneous graph -/

theorem orgEdgesAux_length (orgs : List String) (i : ℕ) (l : List (Option String)) :
    (orgEdgesAux orgs i l).length = l.countP (fun o => decide (strOf o ∈ orgs)) := by
  induction l generalizing i with
  | nil => simp [orgEdgesAux]
  | cons o rest ih =>
    by_cases hm : strOf o ∈ orgs <;>
      simp [orgEdgesAux, hm, ih, List.countP_cons]

/-- Claim C6: the number of event-to-organizer edges equals the number of
event rows whose converted organizer string is a key of the organizer
index map, and is at most the number of event nodes (one per table row). -/
theorem hetero_org_edge_count (col : List (Option String)) :
    (eventOrgEdges (some col)).length
      = col.countP (fun o => decide (strOf o ∈ organizersOf (some col))) ∧
    (eventOrgEdges (some col)).length ≤ col.length := by
  have h : (eventOrgEdges (some col)).length
      = col.countP (fun o => decide (strOf o ∈ organizersOf (some col))) :=
    orgEdgesAux_length (organizersOf (some col)) 0 col
  exact ⟨h, h ▸ List.countP_le_length _⟩

/-- Claim C1, counterexample: for a table with one event whose organizer
cell is NaN (the organizer column being present), dropna removes the cell,
so the organizer node set is empty, "Unknown_Organizer" is NOT among the
organizer nodes, and no event-to-organizer edge is created (the claimed
single edge does not exist). -/
theorem hetero_nan_organizer_cex :
    organizersOf (some [none]) = [] ∧
    "Unknown_Organizer" ∉ organizersOf (some [none]) ∧
    eventOrgEdges (some [none]) = [] := by
  refine ⟨rfl, ?_, rfl⟩
  intro h
  simp [organizersOf] at h

/-- Claim C1, amended: when the organizer column is present and every
organizer cell of the table is NaN, the organizer node set is empty and
there are no event-to-organizer edges; the "Unknown_Organizer" default
node (with no edges pointing at it) appears only when the organizer
column is absent from the table entirely. -/
theorem hetero_nan_organizer_amended (col : List (Option String))
    (h : ∀ o ∈ col, o = none) :
    organizersOf (some col) = [] ∧
    eventOrgEdges (some col) = [] ∧
    organizersOf none = ["Unknown_Organizer"] ∧
    eventOrgEdges none = [] := by
  have hfm : col.filterMap id = [] := by
    rw [List.filterMap_eq_nil_iff]
    intro o ho
    rw [h o ho]
    rfl
  have horgs : organizersOf (some col) = [] := by
    show ((col.filterMap id).dedup).filter (fun s => s != "nan") = []
    rw [hfm]
    rfl
  have hedges : ∀ (i : ℕ) (l : List (Option String)), orgEdgesAux [] i l = [] := by
    intro i l
    induction l generalizing i with
    | nil => rfl
    | cons o rest ih => simp [orgEdgesAux, ih]
  refine ⟨horgs, ?_, rfl, rfl⟩
  show orgEdgesAux (organizersOf (some col)) 0 col = []
  rw [horgs]
  exact hedges 0 col

/-- Witness for the amended claim C1 at a concrete input. -/
theorem hetero_nan_organizer_witness :
    organizersOf (some [none, none]) = [] ∧
    eventOrgEdges (some [none, none]) = [] ∧
    organizersOf none = ["Unknown_Organizer"] ∧
    eventOrgEdges none = [] :=
  hetero_nan_organizer_amended [none, none] (by decide)

/-! ## Text feature preparation
Embedding of GraphConstructor.prepare_text_features
(graph_construction.py lines 187-271).

texts is the combined_text column (title, description and category
space-joined and stripped, one string per event row); vec is the outcome
of the TfidfVectorizer fit_transform library call, none when it raises
(for example on an empty vocabulary).  The function is total, so the
pipeline never halts here.  The code runs the filter/vectorize block
twice (lines 215-242 and 244-271); both runs see the same inputs and
produce the same value, so one pass models them faithfully. -/

def onesMatrix (rows cols : ℕ) : List (List ℚ) :=
  List.replicate rows (List.replicate cols 1)

def prepare_text_features (texts : List String) (vec : Option (List (List ℚ))) :
    List (List ℚ) :=
  if texts.all (fun s => s.length == 0) then onesMatrix texts.length 10
  else
    match vec with
    | none => onesMatrix texts.length 10
    | some m => m

/-! ### Claim C9 about the dummy text-feature fallback -/

/-- Claim C9: if every combined string is empty, or the vectorization
raises, the textual feature block is the all-ones matrix with exactly 10
columns and one row per event (and the embedding is a total function, so
the pipeline does not halt). -/
theorem text_features_fallback_ones (texts : List String)
    (vec : Option (List (List ℚ)))
    (h : texts.all (fun s => s.length == 0) = true ∨ vec = none) :
    prepare_text_features texts vec
      = List.replicate texts.length (List.replicate 10 (1 : ℚ)) := by
  rcases h with h | h
  · unfold prepare_text_features
    rw [if_pos h]
    rfl
  · subst h
    unfold prepare_text_features
    by_cases he : texts.all (fun s => s.length == 0) = true
    · rw [if_pos he]
      rfl
    · rw [if_neg he]
      rfl

/-- Witness for claim C9 at a concrete input: two events with nonempty
combined text but a failing vectorization. -/
theorem text_features_fallback_witness :
    prepare_text_features ["", "abc"] none
      = List.replicate 2 (List.replicate 10 (1 : ℚ)) :=
  text_features_fallback_ones ["", "abc"] none (Or.inr rfl)

/-! ## Node classification data preparation
Embedding of GNNTrainer.prepare_node_classification_data
(gnn_training.py lines 149-196).

perm models np.random.permutation(num_nodes), an arbitrary permutation
of range(num_nodes).  train_size = int(0.6 * N) and val_size =
int(0.2 * N) are the rational floors 3N/5 and N/5 (for every realistic N
the float products round to the same integers). -/

def trainSize (n : ℕ) : ℕ := 3 * n / 5

def valSize (n : ℕ) : ℕ := n / 5

/-- A boolean mask of length n that is true exactly at the listed indices
(mask[indices[...]] = True on a zero tensor). -/
def maskOf (n : ℕ) (idxs : List ℕ) : List Bool :=
  (List.range n).map (fun i => decide (i ∈ idxs))

def trainMaskOf (perm : List ℕ) (n : ℕ) : List Bool :=
  maskOf n (perm.take (trainSize n))

def valMaskOf (perm : List ℕ) (n : ℕ) : List Bool :=
  maskOf n ((perm.drop (trainSize n)).take (valSize n))

def testMaskOf (perm : List ℕ) (n : ℕ) : List Bool :=
  maskOf n (perm.drop (trainSize n + valSize n))

def exactlyOne (a b c : Bool) : Bool :=
  (a && !b && !c) || (!a && b && !c) || (!a && !b && c)

/-- Every node index below n is true in exactly one of the three masks. -/
def masksPartitionB (perm : List ℕ) (n : ℕ) : Bool :=
  (List.range n).all (fun i =>
    exactlyOne ((trainMaskOf perm n).getD i false) ((valMaskOf perm n).getD i false)
      ((testMaskOf perm n).getD i false))

/-- Number of true entries of a mask. -/
def countTrue (m : List Bool) : ℕ := m.countP (fun b => b)

/-- Synthetic label generation (gnn_training.py lines 166-174): with
feature width above 10, k-means cluster ids with
k = min(5, max(2, num_nodes // 10)); otherwise np.random.randint(0, 3)
per node.  km models the kmeans.fit_predict library call for a given
cluster count; rng models the numpy random stream, reduced mod 3 exactly
as randint(0, 3) yields values in {0, 1, 2}. -/
def synthLabels (numNodes width : ℕ) (rng : ℕ → ℕ) (km : ℕ → List ℕ) : List ℕ :=
  if 10 < width then km (min 5 (max 2 (numNodes / 10)))
  else (List.range numNodes).map (fun i => rng i % 3)

/-! ### Claim C5 about the train/val/test masks -/

theorem maskOf_getD (n : ℕ) (idxs : List ℕ) {i : ℕ} (hi : i < n) :
    (maskOf n idxs).getD i false = decide (i ∈ idxs) := by
  unfold maskOf
  have hlen : i < ((List.range n).map (fun k => decide (k ∈ idxs))).length := by
    simpa using hi
  rw [List.getD_eq_getElem _ _ hlen]
  simp

theorem countTrue_maskOf (n : ℕ) (idxs : List ℕ) (hnd : idxs.Nodup)
    (hss : ∀ x ∈ idxs, x < n) :
    countTrue (maskOf n idxs) = idxs.length := by
  unfold countTrue maskOf
  rw [List.countP_map]
  have hperm : ((List.range n).filter (fun i => decide (i ∈ idxs))).Perm idxs := by
    rw [List.perm_ext_iff_of_nodup (List.Nodup.filter _ (List.nodup_range n)) hnd]
    intro a
    simp only [List.mem_filter, List.mem_range, decide_eq_true_eq]
    exact ⟨fun h => h.2, fun h => ⟨hss a h, h⟩⟩
  calc (List.range n).countP ((fun b => b) ∘ fun i => decide (i ∈ idxs))
      = ((List.range n).filter (fun i => decide (i ∈ idxs))).length := by
        rw [List.countP_eq_length_filter]
        rfl
    _ = idxs.length := hperm.length_eq

/-- Claim C5: for every graph of N nodes and every permutation of the node
indices, the train/val/test masks are pairwise disjoint and cover all N
nodes: every index below N is true in exactly one mask, and the true
entries of the three masks sum to N. -/
theorem masks_partition (n : ℕ) (perm : List ℕ)
    (h : perm.Perm (List.range n)) :
    masksPartitionB perm n = true ∧
    countTrue (trainMaskOf perm n) + countTrue (valMaskOf perm n)
      + countTrue (testMaskOf perm n) = n := by
  have hnd : perm.Nodup := h.nodup_iff.mpr (List.nodup_range n)
  have hlen : perm.length = n := by simpa using h.length_eq
  have hmem : ∀ x ∈ perm, x < n := by
    intro x hx
    have := h.mem_iff.mp hx
    simpa using this
  set T : List ℕ := perm.take (trainSize n) with hT
  set V : List ℕ := (perm.drop (trainSize n)).take (valSize n) with hV
  set S : List ℕ := perm.drop (trainSize n + valSize n) with hS
  have hdecomp : T ++ (V ++ S) = perm := by
    have h1 : V ++ S = perm.drop (trainSize n) := by
      rw [hV, hS, ← List.drop_drop]
      exact List.take_append_drop _ _
    rw [h1, hT]
    exact List.take_append_drop _ _
  have hndTVS : (T ++ (V ++ S)).Nodup := by
    rw [hdecomp]
    exact hnd
  have hTnd : T.Nodup := ((List.nodup_append).mp hndTVS).1
  have hVSnd : (V ++ S).Nodup := ((List.nodup_append).mp hndTVS).2.1
  have hVnd : V.Nodup := ((List.nodup_append).mp hVSnd).1
  have hSnd : S.Nodup := ((List.nodup_append).mp hVSnd).2.1
  have hdTVS : T.Disjoint (V ++ S) := ((List.nodup_append).mp hndTVS).2.2
  have hdVS : V.Disjoint S := ((List.nodup_append).mp hVSnd).2.2
  have hTsub : ∀ x ∈ T, x < n := fun x hx => hmem x (hdecomp ▸ List.mem_append_left _ hx)
  have hVsub : ∀ x ∈ V, x < n := fun x hx =>
    hmem x (hdecomp ▸ List.mem_append_right _ (List.mem_append_left _ hx))
  have hSsub : ∀ x ∈ S, x < n := fun x hx =>
    hmem x (hdecomp ▸ List.mem_append_right _ (List.mem_append_right _ hx))
  constructor
  · unfold masksPartitionB
    rw [List.all_eq_true]
    intro i hir
    have hi : i < n := by simpa using hir
    rw [show trainMaskOf perm n = maskOf n T from rfl,
      show valMaskOf perm n = maskOf n V from rfl,
      show testMaskOf perm n = maskOf n S from rfl,
      maskOf_getD n T hi, maskOf_getD n V hi, maskOf_getD n S hi]
    have hiperm : i ∈ perm := h.mem_iff.mpr (by simpa using hi)
    have : i ∈ T ++ (V ++ S) := hdecomp ▸ hiperm
    rcases List.mem_append.mp this with hiT | hiVS
    · have hnV : i ∉ V := fun hc => hdTVS hiT (List.mem_append_left _ hc)
      have hnS : i ∉ S := fun hc => hdTVS hiT (List.mem_append_right _ hc)
      rw [decide_eq_true hiT, decide_eq_false hnV, decide_eq_false hnS]
      rfl
    · rcases List.mem_append.mp hiVS with hiV | hiS
      · have hnT : i ∉ T := fun hc => hdTVS hc (List.mem_append_left _ hiV)
        have hnS : i ∉ S := fun hc => hdVS hiV hc
        rw [decide_eq_false hnT, decide_eq_true hiV, decide_eq_false hnS]
        rfl
      · have hnT : i ∉ T := fun hc => hdTVS hc (List.mem_append_right _ hiS)
        have hnV : i ∉ V := fun hc => hdVS hc hiS
        rw [decide_eq_false hnT, decide_eq_false hnV, decide_eq_true hiS]
        rfl
  · rw [show trainMaskOf perm n = maskOf n T from rfl,
      show valMaskOf perm n = maskOf n V from rfl,
      show testMaskOf perm n = maskOf n S from rfl,
      countTrue_maskOf n T hTnd hTsub, countTrue_maskOf n V hVnd hVsub,
      countTrue_maskOf n S hSnd hSsub]
    have : (T ++ (V ++ S)).length = perm.length := by rw [hdecomp]
    simpa [List.length_append, Nat.add_assoc, hlen] using this

/-- Witness for claim C5 at a concrete input: a graph of 5 nodes and the
permutation [2, 0, 4, 1, 3]. -/
theorem masks_partition_witness :
    masksPartitionB [2, 0, 4, 1, 3] 5 = true ∧
    countTrue (trainMaskOf [2, 0, 4, 1, 3] 5) + countTrue (valMaskOf [2, 0, 4, 1, 3] 5)
      + countTrue (testMaskOf [2, 0, 4, 1, 3] 5) = 5 :=
  masks_partition 5 [2, 0, 4, 1, 3] (by decide)

/-! ### Claim C7 about synthetic label generation -/

theorem dedup_length_le_three (l : List ℕ) (h : ∀ x ∈ l, x < 3) :
    l.dedup.length ≤ 3 := by
  have hnd : l.dedup.Nodup := l.nodup_dedup
  have hsub : l.dedup.toFinset ⊆ Finset.range 3 := by
    intro x hx
    rw [List.mem_toFinset] at hx
    exact Finset.mem_range.mpr (h x (List.mem_dedup.mp hx))
  calc l.dedup.length = l.dedup.toFinset.card := (List.toFinset_card_of_nodup hnd).symm
    _ ≤ (Finset.range 3).card := Finset.card_le_card hsub
    _ = 3 := Finset.card_range 3

/-- Claim C7: with feature width at most 10 the labels are the uniform
random draws over the set 0..2 (each label is below 3 and the number of
distinct labels is at most 3, so the reported class count is at most 3);
with width above 10 the labels are the k-means cluster ids for exactly
k = min(5, max(2, num_nodes / 10)), a value always between 2 and 5. -/
theorem synthetic_labels_spec (numNodes width : ℕ) (rng : ℕ → ℕ) (km : ℕ → List ℕ) :
    synthLabels numNodes width rng km
      = (if 10 < width then km (min 5 (max 2 (numNodes / 10)))
         else (List.range numNodes).map (fun i => rng i % 3)) ∧
    ((List.range numNodes).map (fun i => rng i % 3)).all (fun l => decide (l < 3)) = true ∧
    ((List.range numNodes).map (fun i => rng i % 3)).dedup.length ≤ 3 ∧
    2 ≤ min 5 (max 2 (numNodes / 10)) ∧ min 5 (max 2 (numNodes / 10)) ≤ 5 := by
  refine ⟨rfl, ?_, ?_, ?_, ?_⟩
  · rw [List.all_eq_true]
    intro l hl
    rcases List.mem_map.mp hl with ⟨i, -, hli⟩
    exact decide_eq_true (hli ▸ Nat.mod_lt _ (by norm_num))
  · refine dedup_length_le_three _ ?_
    intro x hx
    rcases List.mem_map.mp hx with ⟨i, -, hxi⟩
    exact hxi ▸ Nat.mod_lt _ (by norm_num)
  · omega
  · omega

/-! ## GNN trainer state
Embedding of the GNNTrainer state (gnn_training.py): self.graphs,
self.models and self.results, together with train_link_prediction
(lines 275-347) and train_node_classification (lines 198-273).

A stored graph is reduced to the fields the claims touch: node count,
feature width, the optional edge index (none models a graph object
without an edge_index attribute), and the optional y/train/val/test
fields that prepare_node_classification_data attaches in place.  The
torch training loops themselves are library-driven numeric computation
and are modelled by oracles (lp, trainer) supplying the resulting metric;
the claims only concern the control flow around them. -/

structure GGraph where
  numNodes : ℕ
  width : ℕ
  edgeIndex : Option (List (ℕ × ℕ))
  y : Option (List ℕ)
  train_mask : Option (List Bool)
  val_mask : Option (List Bool)
  test_mask : Option (List Bool)
deriving DecidableEq

structure GNNState where
  graphs : List (String × GGraph)
  models : List (String × String)
  results : List (String × ℚ)
deriving DecidableEq

/-- The rejection test at gnn_training.py line 289: edge_index absent, or
present with zero columns. -/
def edgeless (g : GGraph) : Bool :=
  match g.edgeIndex with
  | none => true
  | some e => e.isEmpty

/-- Graph-name resolution (lines 278-285 and 152-160): use the requested
name when stored, otherwise fall back to the first available graph. -/
def resolveGraph (st : GNNState) (name : String) : Option (String × GGraph) :=
  match st.graphs.lookup name with
  | some g => some (name, g)
  | none => st.graphs.head?

/-- train_link_prediction (lines 275-347): resolve the graph; reject
edgeless graphs with a null result and untouched state; otherwise run the
training (oracle lp) and append the result record. -/
def train_link_prediction (lp : GGraph → ℚ) (st : GNNState) (name : String) :
    Option ℚ × GNNState :=
  match resolveGraph st name with
  | none => (none, st)
  | some (gname, g) =>
    if edgeless g then (none, st)
    else
      (some (lp g),
        { st with results := st.results ++ [("LinkPred_" ++ gname, lp g)] })

/-- In-place update of a stored graph, as the Python code mutates the
object held in self.graphs. -/
def setGraph (graphs : List (String × GGraph)) (name : String) (g : GGraph) :
    List (String × GGraph) :=
  graphs.map (fun p => if p.1 = name then (name, g) else p)

/-- prepare_node_classification_data (lines 149-196): resolve the graph,
attach synthetic labels and fresh train/val/test masks to the stored
graph object, and return it. -/
def prepare_node_classification_data (rng : ℕ → ℕ) (km : ℕ → List ℕ) (perm : List ℕ)
    (st : GNNState) (name : String) : Option (String × GGraph) × GNNState :=
  match resolveGraph st name with
  | none => (none, st)
  | some (gname, g) =>
    let g2 : GGraph :=
      { g with
        y := some (synthLabels g.numNodes g.width rng km),
        train_mask := some (trainMaskOf perm g.numNodes),
        val_mask := some (valMaskOf perm g.numNodes),
        test_mask := some (testMaskOf perm g.numNodes) }
    (some (gname, g2), { st with graphs := setGraph st.graphs gname g2 })

/-- train_node_classification (lines 198-273): prepare the data first
(mutating the stored graph), then dispatch on the model type; an unknown
model type is rejected with a null result and no model or result record,
after the mutation has already happened. -/
def train_node_classification (rng : ℕ → ℕ) (km : ℕ → List ℕ) (perm : List ℕ)
    (trainer : GGraph → String → ℚ) (st : GNNState) (name modelType : String) :
    Option ℚ × GNNState :=
  match prepare_node_classification_data rng km perm st name with
  | (none, st2) => (none, st2)
  | (some (gname, g), st2) =>
    if modelType = "GCN" ∨ modelType = "GAT" ∨ modelType = "GraphSAGE" then
      let r := trainer g modelType
      (some r,
        { st2 with
          models := st2.models ++ [(modelType ++ "_" ++ gname, modelType)],
          results := st2.results ++ [(modelType ++ "_" ++ gname, r)] })
    else (none, st2)

/-! ### Claim C8 about link prediction on an edgeless graph -/

/-- Claim C8: calling link prediction training on a stored graph with no
edges (edge_index absent or of width 0) returns a null result and leaves
the trainer state untouched: no result record and no model is stored for
that run (and the embedding is a total function, so no exception
escapes). -/
theorem link_prediction_edgeless_null (lp : GGraph → ℚ) (st : GNNState)
    (name : String) (g : GGraph)
    (h1 : st.graphs.lookup name = some g) (h2 : edgeless g = true) :
    train_link_prediction lp st name = (none, st) ∧
    (train_link_prediction lp st name).2.results = st.results ∧
    (train_link_prediction lp st name).2.models = st.models := by
  have hres : resolveGraph st name = some (name, g) := by
    unfold resolveGraph
    rw [h1]
  have hmain : train_link_prediction lp st name = (none, st) := by
    unfold train_link_prediction
    rw [hres]
    simp [h2]
  exact ⟨hmain, by rw [hmain], by rw [hmain]⟩

/-- Witness for claim C8 at a concrete input: a stored graph whose
edge_index is present but has zero columns. -/
theorem link_prediction_edgeless_witness :
    train_link_prediction (fun _ => 0)
        ⟨[("event_similarity", ⟨12, 4, some [], none, none, none, none⟩)], [], []⟩
        "event_similarity"
      = (none, ⟨[("event_similarity", ⟨12, 4, some [], none, none, none, none⟩)], [], []⟩) ∧
    (train_link_prediction (fun _ => 0)
        ⟨[("event_similarity", ⟨12, 4, some [], none, none, none, none⟩)], [], []⟩
        "event_similarity").2.results = [] ∧
    (train_link_prediction (fun _ => 0)
        ⟨[("event_similarity", ⟨12, 4, some [], none, none, none, none⟩)], [], []⟩
        "event_similarity").2.models = [] :=
  link_prediction_edgeless_null (fun _ => 0) _ "event_similarity"
    ⟨12, 4, some [], none, none, none, none⟩ rfl rfl

/-! ### Claim C10 about the non-atomic rejection of an unknown model type -/

theorem lookup_setGraph (graphs : List (String × GGraph)) (name : String)
    (g g0 : GGraph) (h : graphs.lookup name = some g0) :
    (setGraph graphs name g).lookup name = some g := by
  induction graphs with
  | nil => simp at h
  | cons p rest ih =>
    by_cases hp : p.1 = name
    · unfold setGraph
      rw [List.map_cons, if_pos hp]
      simp [List.lookup]
    · unfold setGraph
      rw [List.map_cons, if_neg hp]
      have hne : (name == p.1) = false := beq_eq_false_iff_ne.mpr (fun hc => hp hc.symm)
      rw [List.lookup] at h ⊢
      rw [hne] at h ⊢
      exact ih h

/-- Claim C10: calling train_node_classification with a model type outside
GCN/GAT/GraphSAGE returns a null result and stores no model and no result
record, but the stored graph has nevertheless already been mutated by
prepare_node_classification_data: its y field now carries the synthetic
labels and its three masks are freshly attached, so the rejection is not
atomic with respect to the trainer graph state. -/
theorem unknown_model_type_mutates (rng : ℕ → ℕ) (km : ℕ → List ℕ) (perm : List ℕ)
    (trainer : GGraph → String → ℚ) (st : GNNState) (name modelType : String)
    (g : GGraph)
    (h1 : st.graphs.lookup name = some g)
    (h2 : ¬(modelType = "GCN" ∨ modelType = "GAT" ∨ modelType = "GraphSAGE")) :
    (train_node_classification rng km perm trainer st name modelType).1 = none ∧
    (train_node_classification rng km perm trainer st name modelType).2.models
      = st.models ∧
    (train_node_classification rng km perm trainer st name modelType).2.results
      = st.results ∧
    (train_node_classification rng km perm trainer st name modelType).2.graphs.lookup name
      = some { g with
          y := some (synthLabels g.numNodes g.width rng km),
          train_mask := some (trainMaskOf perm g.numNodes),
          val_mask := some (valMaskOf perm g.numNodes),
          test_mask := some (testMaskOf perm g.numNodes) } := by
  have hres : resolveGraph st name = some (name, g) := by
    unfold resolveGraph
    rw [h1]
  set g2 : GGraph :=
    { g with
      y := some (synthLabels g.numNodes g.width rng km),
      train_mask := some (trainMaskOf perm g.numNodes),
      val_mask := some (valMaskOf perm g.numNodes),
      test_mask := some (testMaskOf perm g.numNodes) } with hg2
  have hprep : prepare_node_classification_data rng km perm st name
      = (some (name, g2), { st with graphs := setGraph st.graphs name g2 }) := by
    unfold prepare_node_classification_data
    rw [hres]
  have hmain : train_node_classification rng km perm trainer st name modelType
      = (none, { st with graphs := setGraph st.graphs name g2 }) := by
    unfold train_node_classification
    rw [hprep]
    simp [h2]
  rw [hmain]
  refine ⟨rfl, rfl, rfl, ?_⟩
  exact lookup_setGraph st.graphs name g2 g h1

/-- Witness for claim C10 at a concrete input: a 2-node stored graph with
no labels and no masks, and the unknown model type "Transformer". -/
theorem unknown_model_type_witness :
    (train_node_classification (fun i => i) (fun _ => []) [1, 0] (fun _ _ => 0)
        ⟨[("event_similarity", ⟨2, 3, some [(0, 1)], none, none, none, none⟩)], [], []⟩
        "event_similarity" "Transformer").1 = none ∧
    (train_node_classification (fun i => i) (fun _ => []) [1, 0] (fun _ _ => 0)
        ⟨[("event_similarity", ⟨2, 3, some [(0, 1)], none, none, none, none⟩)], [], []⟩
        "event_similarity" "Transformer").2.models = [] ∧
    (train_node_classification (fun i => i) (fun _ => []) [1, 0] (fun _ _ => 0)
        ⟨[("event_similarity", ⟨2, 3, some [(0, 1)], none, none, none, none⟩)], [], []⟩
        "event_similarity" "Transformer").2.results = [] ∧
    (train_node_classification (fun i => i) (fun _ => []) [1, 0] (fun _ _ => 0)
        ⟨[("event_similarity", ⟨2, 3, some [(0, 1)], none, none, none, none⟩)], [], []⟩
        "event_similarity" "Transformer").2.graphs.lookup "event_similarity"
      = some { numNodes := 2, width := 3, edgeIndex := some [(0, 1)],
               y := some (synthLabels 2 3 (fun i => i) (fun _ => [])),
               train_mask := some (trainMaskOf [1, 0] 2),
               val_mask := some (valMaskOf [1, 0] 2),
               test_mask := some (testMaskOf [1, 0] 2) } :=
  unknown_model_type_mutates (fun i => i) (fun _ => []) [1, 0] (fun _ _ => 0)
    ⟨[("event_similarity", ⟨2, 3, some [(0, 1)], none, none, none, none⟩)], [], []⟩
    "event_similarity" "Transformer" ⟨2, 3, some [(0, 1)], none, none, none, none⟩
    rfl (by decide)

end Meetup
